import Mathlib

/-!
Shallow embedding of the `TheCollective` agent core (src/orchestrator.py,
class JarvisMindV2) and proofs about its specified behaviour.

Modelling conventions:
- Python floats become rationals.
- Python dicts keyed by possibly-missing strings become association lists
  keyed by `Option String` (a missing `mind` key is `none`, matching the
  semantics of `dict.get`).
- Each `async` loop body becomes a pure step function from the agent state
  and an environment value (collaborator outcome, inbound bus message) to
  the next agent state together with the list of bus publications the body
  performs.  A caught exception inside a loop body is modelled by a
  distinguished input constructor; totality of the step function models the
  fact that the loop body never lets an exception escape.
-/

namespace TheCollective

/-- Personality trait names, the fixed seven-element set used by
`_initialize_personality` (orchestrator.py lines 99-107). -/
inductive Trait where
  | curiosity
  | caution
  | creativity
  | logic
  | empathy
  | productivity
  | perfectionism
deriving DecidableEq, Repr, Fintype

/-- Base personality profile, from `_initialize_personality`
(orchestrator.py lines 99-107). -/
def basePersonality : Trait → ℚ
  | .curiosity => 7/10
  | .caution => 5/10
  | .creativity => 6/10
  | .logic => 7/10
  | .empathy => 6/10
  | .productivity => 7/10
  | .perfectionism => 6/10

/-- Role-specific override table from `_initialize_personality`
(orchestrator.py lines 110-161); an unknown tag has no overrides,
matching the `if self.specialization in specializations` guard. -/
def specialization_overrides (tag : String) : List (Trait × ℚ) :=
  if tag = "philosopher" then
    [(Trait.curiosity, 95/100), (Trait.logic, 9/10), (Trait.empathy, 85/100)]
  else if tag = "scientist" then
    [(Trait.logic, 95/100), (Trait.caution, 8/10), (Trait.productivity, 85/100)]
  else if tag = "engineer" then
    [(Trait.logic, 85/100), (Trait.creativity, 8/10), (Trait.productivity, 95/100)]
  else if tag = "artist" then
    [(Trait.creativity, 95/100), (Trait.empathy, 9/10), (Trait.perfectionism, 9/10)]
  else if tag = "historian" then
    [(Trait.caution, 8/10), (Trait.logic, 75/100), (Trait.curiosity, 85/100)]
  else if tag = "strategist" then
    [(Trait.logic, 9/10), (Trait.caution, 85/100), (Trait.productivity, 8/10)]
  else if tag = "explorer" then
    [(Trait.curiosity, 95/100), (Trait.caution, 3/10), (Trait.creativity, 9/10)]
  else if tag = "optimizer" then
    [(Trait.logic, 95/100), (Trait.creativity, 7/10), (Trait.productivity, 9/10)]
  else if tag = "synthesizer" then
    [(Trait.creativity, 9/10), (Trait.empathy, 85/100), (Trait.logic, 8/10)]
  else if tag = "guardian" then
    [(Trait.caution, 95/100), (Trait.empathy, 8/10), (Trait.perfectionism, 85/100)]
  else []

/-- The known role tags, the keys of the `specializations` dict
(orchestrator.py lines 110-161). -/
def knownSpecializations : List String :=
  ["philosopher", "scientist", "engineer", "artist", "historian",
   "strategist", "explorer", "optimizer", "synthesizer", "guardian"]

/-- Lookup of a trait in an override table.  Each table lists every key at
most once, so first-match lookup agrees with the last-write-wins semantics
of `dict.update`. -/
def ovFind (t : Trait) : List (Trait × ℚ) → Option ℚ
  | [] => none
  | (k, v) :: rest => if k = t then some v else ovFind t rest

/-- Derived personality: base profile updated by the override table for the
tag, i.e. `base.update(specializations[tag])` (orchestrator.py lines 163-166). -/
def initialize_personality (tag : String) : Trait → ℚ := fun t =>
  match ovFind t (specialization_overrides tag) with
  | some v => v
  | none => basePersonality t

/-- Per-peer relationship record created by `process_other_thought`
(orchestrator.py lines 543-549). -/
structure Relationship where
  interactions : Nat
  collaboration_score : ℚ
deriving DecidableEq, Repr

/-- Decoded inbound bus message payload.  `mind` is the value the code
reads with `data.get` under the mind key and may be absent. -/
structure PeerMsg where
  mind : Option String
  content : Option String
deriving DecidableEq, Repr

/-- One item delivered by `pubsub.listen()` to `listen_to_others`
(orchestrator.py lines 497-519): either a non-message transport item
(filtered by the check that the message type field equals the literal
message), a message whose
JSON payload fails to decode (the exception is caught), or a decoded
message on a channel. -/
inductive Inbound where
  | nonMessage
  | malformed (channel : String)
  | decoded (channel : String) (data : PeerMsg)
deriving DecidableEq, Repr

/-- Lookup in a Python-dict-like association list. -/
def dictFind (k : Option String) :
    List (Option String × Relationship) → Option Relationship
  | [] => none
  | (k2, v) :: rest => if k2 = k then some v else dictFind k rest

/-- Write to a Python-dict-like association list: replace the value under
an existing key, otherwise append the new key at the end. -/
def dictSet (k : Option String) (v : Relationship) :
    List (Option String × Relationship) → List (Option String × Relationship)
  | [] => [(k, v)]
  | (k2, v2) :: rest =>
    if k2 = k then (k2, v) :: rest else (k2, v2) :: dictSet k v rest

/-- Structured output payload of a work cycle: the dict shapes produced by
`analyze_project`, `develop_core_system`, `design_user_experience` and
`optimize_system` (orchestrator.py lines 197-420). -/
inductive WorkOutput where
  | analysisReport (analyst : String) (findings : List String)
  | devProposed (component : String) (design : String)
  | devFailed
  | uxDraft
  | optimizationTesting
deriving DecidableEq, Repr

/-- Work record built by `work_on_mission` (orchestrator.py lines 334-340):
owning mind, phase at production time, work type, and output payload
(`none` models Python `None`). -/
structure WorkRecord where
  mind : String
  phase : String
  wtype : Option String
  output : Option WorkOutput
deriving DecidableEq, Repr

/-- Outcome of the inference HTTP call inside `develop_core_system`
(orchestrator.py lines 389-407): either the request raised (timeout,
connection error, JSON decode error - all caught by the `except` clause)
or it produced a response with a status code and generated text. -/
inductive InferResult where
  | error
  | response (status_code : Nat) (text : String)
deriving DecidableEq, Repr

/-- Environment for one worker-loop cycle: the outcomes the phase
collaborators would produce this cycle. -/
structure CollabEnv where
  inferResp : InferResult
  findings : List String
deriving DecidableEq, Repr

/-- Mutable agent state shared by the three loops (orchestrator.py
lines 35-74). -/
structure AgentState where
  name : String
  specialization : String
  current_phase : String
  personality : Trait → ℚ
  insights : List String
  tasks_completed : List WorkRecord
  relationships : List (Option String × Relationship)
  conversation_history : List PeerMsg
  generation : Nat
  running : Bool

/-- Channels subscribed by `connect` (orchestrator.py lines 187-193). -/
def subscribedChannels : List String :=
  ["society_channel", "daily_standup", "code_review", "design_review",
   "architecture_review"]

/-- The `develop_core_system` collaborator (orchestrator.py lines 368-410):
a 200 response yields the proposed-component dict, any other status code or
a raised exception falls through to the failed-status dict. -/
def develop_core_system (specialization : String) (r : InferResult) :
    WorkOutput :=
  match r with
  | .error => .devFailed
  | .response code text =>
    if code = 200 then .devProposed specialization text else .devFailed

/-- The phase dispatch of `work_on_mission` (orchestrator.py lines 327-366):
each known phase invokes its collaborator; an unknown phase leaves both the
work type and the output as `None`. -/
def work_on_mission (s : AgentState) (e : CollabEnv) : WorkRecord :=
  let output : Option WorkOutput :=
    if s.current_phase = "analysis" then
      some (.analysisReport s.name e.findings)
    else if s.current_phase = "core_systems" then
      some (develop_core_system s.specialization e.inferResp)
    else if s.current_phase = "user_experience" then some .uxDraft
    else if s.current_phase = "polish" then some .optimizationTesting
    else none
  let wtype : Option String :=
    if s.current_phase = "analysis" then some "analysis"
    else if s.current_phase = "core_systems" then some "development"
    else if s.current_phase = "user_experience" then some "design"
    else if s.current_phase = "polish" then some "optimization"
    else none
  { mind := s.name, phase := s.current_phase, wtype := wtype, output := output }

/-- A message published on the bus by the agent. -/
structure Published where
  channel : String
  mind : String
  mtype : String
deriving DecidableEq, Repr

/-- One iteration of the worker loop body (orchestrator.py lines 460-485).
`none` models an iteration whose body raised: the exception is caught, the
state is left unchanged and the loop sleeps briefly and continues.  On a
normal iteration the work record is produced, a `work_update` is published
on `society_channel` when the output payload is non-null, the record is
appended to `tasks_completed` and the generation counter is incremented. -/
def worker_step (s : AgentState) (env : Option CollabEnv) :
    AgentState × List Published :=
  match env with
  | none => (s, [])
  | some e =>
    let work := work_on_mission s e
    let pubs : List Published :=
      match work.output with
      | some _ => [{ channel := "society_channel", mind := s.name,
                     mtype := "work_update" }]
      | none => []
    ({ s with tasks_completed := s.tasks_completed ++ [work],
              generation := s.generation + 1 }, pubs)

/-- The `process_other_thought` handler (orchestrator.py lines 536-552):
lazily create the relationship for the sending mind with interaction
count 0 and collaboration score 0.5, increment the interaction count, and
append the thought to conversation history. -/
def process_other_thought (s : AgentState) (thought : PeerMsg) : AgentState :=
  let other_mind := thought.mind
  let rels0 :=
    if dictFind other_mind s.relationships = none then
      dictSet other_mind { interactions := 0, collaboration_score := 1/2 }
        s.relationships
    else s.relationships
  let rels1 :=
    match dictFind other_mind rels0 with
    | some r => dictSet other_mind { r with interactions := r.interactions + 1 } rels0
    | none => rels0
  { s with relationships := rels1,
           conversation_history := s.conversation_history ++ [thought] }

/-- One delivered item of the listener loop `listen_to_others`
(orchestrator.py lines 494-519).  Non-messages are skipped; a JSON decode
failure is caught and dropped; a decoded message from the agent itself is
skipped; otherwise the message is routed by channel, where the standup,
code-review and design-review handlers are no-ops and every other channel
goes to `process_other_thought`. -/
def listen_step (s : AgentState) (inb : Inbound) : AgentState :=
  match inb with
  | .nonMessage => s
  | .malformed _ => s
  | .decoded channel data =>
    if data.mind = some s.name then s
    else if channel = "daily_standup" then s
    else if channel = "code_review" then s
    else if channel = "design_review" then s
    else process_other_thought s data

/-- The listener loop over a finite prefix of the inbound stream. -/
def run_listener (s : AgentState) (msgs : List Inbound) : AgentState :=
  msgs.foldl listen_step s

/-- The worker loop over a finite list of cycle environments, guarded by
the `running` flag as in `while self.running` (orchestrator.py line 460). -/
def run_worker (s : AgentState) (envs : List (Option CollabEnv)) : AgentState :=
  envs.foldl (fun st e => if st.running then (worker_step st e).1 else st) s

/-- Standup report built by `daily_standup` (orchestrator.py lines 429-436). -/
structure StandupReport where
  mind : String
  completed : Nat
  status : String
  insights : List String
deriving DecidableEq, Repr

/-- The `daily_standup` report construction (orchestrator.py lines 429-436):
`completed` is the length of `tasks_completed`, `status` is the current
phase, and `insights` is the Python slice `self.insights[-3:]` guarded by
the emptiness conditional. -/
def daily_standup (s : AgentState) : StandupReport :=
  { mind := s.name,
    completed := s.tasks_completed.length,
    status := s.current_phase,
    insights :=
      if s.insights.isEmpty then []
      else s.insights.drop (s.insights.length - 3) }

/-- Worker pacing delay (orchestrator.py line 478): 30.0 times the value
2.0 minus the productivity trait of the personality. -/
def work_delay (s : AgentState) : ℚ :=
  30 * (2 - s.personality Trait.productivity)

/-- Interaction count recorded for a peer key, 0 when no relationship
exists yet. -/
def interactionsOf (s : AgentState) (k : Option String) : Nat :=
  match dictFind k s.relationships with
  | some r => r.interactions
  | none => 0

/-- Boolean test for a failed inference collaborator call: the HTTP request
raised, or the response status code is not 200 (orchestrator.py
lines 389-410). -/
def inferFailed : InferResult → Bool
  | .error => true
  | .response code _ => code != 200

/-- All recorded collaboration scores sit at the initial value 0.5. -/
def scores_half (s : AgentState) : Prop :=
  ∀ p ∈ s.relationships, p.2.collaboration_score = 1/2

section Examples

/-- Concrete agent in phase `core_systems`, used to instantiate theorems. -/
def exCore : AgentState :=
  { name := "JARVIS_A", specialization := "engineer",
    current_phase := "core_systems", personality := basePersonality,
    insights := [], tasks_completed := [], relationships := [],
    conversation_history := [], generation := 0, running := true }

/-- Concrete receiving agent, used to instantiate listener theorems. -/
def exB : AgentState :=
  { name := "JARVIS_B", specialization := "guardian",
    current_phase := "analysis", personality := basePersonality,
    insights := [], tasks_completed := [], relationships := [],
    conversation_history := [], generation := 0, running := true }

/-- Concrete agent whose productivity trait is the engineer override. -/
def exEng : AgentState :=
  { exCore with personality := initialize_personality "engineer" }

/-- A decoded peer message sent by agent `JARVIS_A`. -/
def msgFromA : PeerMsg :=
  { mind := some "JARVIS_A", content := some "proposal" }

/-- A decoded message carrying the name of `exB` itself. -/
def msgSelfB : PeerMsg :=
  { mind := some "JARVIS_B", content := some "note to self" }

/-- Collaborator environment where the inference call raises (timeout). -/
def envTimeout : CollabEnv := { inferResp := .error, findings := [] }

/-- Collaborator environment where the inference call returns HTTP 503. -/
def envHttp503 : CollabEnv :=
  { inferResp := .response 503 "unavailable", findings := [] }

/-- Collaborator environment where the inference call succeeds. -/
def envOk : CollabEnv :=
  { inferResp := .response 200 "component design", findings := [] }

/-- A sample work record used to populate task lists. -/
def exRecord : WorkRecord :=
  { mind := "JARVIS_A", phase := "polish", wtype := some "optimization",
    output := some .optimizationTesting }

/-- Concrete agent with four completed tasks in phase `polish`. -/
def exPolish4 : AgentState :=
  { exCore with
    current_phase := "polish",
    tasks_completed := [exRecord, exRecord, exRecord, exRecord],
    insights := ["i1", "i2", "i3", "i4", "i5"] }

end Examples

section DictLemmas

lemma dictFind_dictSet_same (k : Option String) (v : Relationship)
    (d : List (Option String × Relationship)) :
    dictFind k (dictSet k v d) = some v := by
  induction d with
  | nil => simp [dictSet, dictFind]
  | cons p rest ih =>
    obtain ⟨k2, v2⟩ := p
    by_cases h : k2 = k
    · simp [dictSet, dictFind, h]
    · simp [dictSet, dictFind, h, ih]

lemma mem_dictSet (k : Option String) (v : Relationship)
    (d : List (Option String × Relationship)) :
    ∀ p ∈ dictSet k v d, p = (k, v) ∨ p ∈ d := by
  induction d with
  | nil => simp [dictSet]
  | cons q rest ih =>
    obtain ⟨k2, v2⟩ := q
    intro p hp
    by_cases h : k2 = k
    · simp only [dictSet, if_pos h, List.mem_cons] at hp
      rcases hp with h1 | h1
      · exact Or.inl (by rw [h1, h])
      · exact Or.inr (List.mem_cons_of_mem _ h1)
    · simp only [dictSet, if_neg h, List.mem_cons] at hp
      rcases hp with h1 | h1
      · exact Or.inr (by rw [h1]; exact List.mem_cons_self _ _)
      · rcases ih p h1 with h2 | h2
        · exact Or.inl h2
        · exact Or.inr (List.mem_cons_of_mem _ h2)

lemma dictFind_mem (k : Option String) (r : Relationship)
    (d : List (Option String × Relationship)) (h : dictFind k d = some r) :
    (k, r) ∈ d := by
  induction d with
  | nil => simp [dictFind] at h
  | cons q rest ih =>
    obtain ⟨k2, v2⟩ := q
    by_cases hk : k2 = k
    · simp only [dictFind, if_pos hk, Option.some.injEq] at h
      rw [← hk, ← h]
      exact List.mem_cons_self _ _
    · simp only [dictFind, if_neg hk] at h
      exact List.mem_cons_of_mem _ (ih h)

/-- Effect of `process_other_thought` on the relationship map: a fresh peer
gets a record with one interaction and score 0.5; a known peer keeps its
score and gains one interaction. -/
lemma process_other_thought_rel (s : AgentState) (m : PeerMsg) :
    (process_other_thought s m).relationships =
      match dictFind m.mind s.relationships with
      | none =>
        dictSet m.mind { interactions := 1, collaboration_score := 1/2 }
          (dictSet m.mind { interactions := 0, collaboration_score := 1/2 }
            s.relationships)
      | some r =>
        dictSet m.mind
          { interactions := r.interactions + 1,
            collaboration_score := r.collaboration_score } s.relationships := by
  unfold process_other_thought
  rcases h : dictFind m.mind s.relationships with _ | r
  · simp [h, dictFind_dictSet_same]
  · simp [h]

end DictLemmas

section ListLemmas

/-- The Python slice `l[-3:]` guarded by the emptiness conditional equals
the reversed 3-element prefix of the reversed list, i.e. the last
`min 3 (length l)` entries. -/
lemma pySlice_eq_rtake (l : List String) :
    (if l.isEmpty then [] else l.drop (l.length - 3)) =
      (l.reverse.take 3).reverse := by
  rcases l with _ | ⟨a, t⟩
  · simp
  · rw [show ((a :: t).drop ((a :: t).length - 3)) = (a :: t).rtake 3 from rfl,
      List.rtake_eq_reverse_take_reverse]
    simp

end ListLemmas

/-- Claim C4: for every productivity trait value p in [0,1], the
worker-loop pacing delay equals 30 * (2 - p), lies within [30, 60], and is
strictly decreasing in p. -/
theorem pacing_delay_spec (s t : AgentState)
    (h0 : 0 ≤ s.personality Trait.productivity)
    (h1 : s.personality Trait.productivity ≤ 1) :
    (work_delay s = 30 * (2 - s.personality Trait.productivity) ∧
     30 * 1 ≤ work_delay s ∧ work_delay s ≤ 30 * 2) ∧
    (s.personality Trait.productivity < t.personality Trait.productivity →
      work_delay t < work_delay s) := by
  unfold work_delay
  constructor
  · refine ⟨rfl, ?_, ?_⟩ <;> nlinarith
  · intro h
    nlinarith

/-- Witness for C4: the base profile productivity 0.7 satisfies the bounds,
and the engineer profile with productivity 0.95 yields a strictly shorter
delay. -/
theorem pacing_delay_spec_witness :
    (30 * 1 ≤ work_delay exCore ∧ work_delay exCore ≤ 30 * 2) ∧
    work_delay exEng < work_delay exCore := by
  have hval : exCore.personality Trait.productivity = 7/10 := rfl
  have hval2 : exEng.personality Trait.productivity = 95/100 := rfl
  have h := pacing_delay_spec exCore exEng
    (by rw [hval]; norm_num) (by rw [hval]; norm_num)
  exact ⟨⟨h.1.2.1, h.1.2.2⟩, h.2 (by rw [hval, hval2]; norm_num)⟩

/-- Claim C6: whenever the standup scheduler fires, the report counts all
completed tasks, reports the current phase as its status, and carries
exactly the last min(3, n) entries of the insight log, the empty list when
the log is empty. -/
theorem standup_report_spec (s : AgentState) :
    (daily_standup s).completed = s.tasks_completed.length ∧
    (daily_standup s).status = s.current_phase ∧
    (daily_standup s).insights = (s.insights.reverse.take 3).reverse ∧
    (daily_standup s).insights.length = min 3 s.insights.length ∧
    (s.insights = [] → (daily_standup s).insights = []) := by
  refine ⟨rfl, rfl, ?_, ?_, ?_⟩
  · exact pySlice_eq_rtake s.insights
  · rw [show (daily_standup s).insights =
        (s.insights.reverse.take 3).reverse from pySlice_eq_rtake s.insights]
    simp
  · intro h
    simp [daily_standup, h]

/-- Witness for C6: an agent with four completed tasks in phase polish
reports completed 4 and status polish with the last three of five insights,
and an agent with an empty insight log reports no insights. -/
theorem standup_report_spec_witness :
    (daily_standup exPolish4).completed = 4 ∧
    (daily_standup exPolish4).status = "polish" ∧
    (daily_standup exPolish4).insights.length = min 3 exPolish4.insights.length ∧
    (daily_standup exCore).insights = [] := by
  refine ⟨(standup_report_spec exPolish4).1.trans rfl,
    (standup_report_spec exPolish4).2.1.trans rfl,
    (standup_report_spec exPolish4).2.2.2.1,
    (standup_report_spec exCore).2.2.2.2 rfl⟩

/-- Claim C7: a peer message whose mind field equals the own name of the
receiving agent is filtered before any routing, leaving the whole agent
state, in particular conversation history and the relationship map,
unchanged. -/
theorem self_message_filtered (s : AgentState) (ch : String) (m : PeerMsg)
    (h : m.mind = some s.name) :
    listen_step s (.decoded ch m) = s ∧
    (listen_step s (.decoded ch m)).conversation_history =
      s.conversation_history ∧
    (listen_step s (.decoded ch m)).relationships = s.relationships := by
  have hstep : listen_step s (.decoded ch m) = s := by
    simp [listen_step, h]
  exact ⟨hstep, by rw [hstep], by rw [hstep]⟩

/-- Witness for C7: a message carrying the name JARVIS_B delivered to the
agent JARVIS_B leaves the state untouched. -/
theorem self_message_filtered_witness :
    listen_step exB (.decoded "society_channel" msgSelfB) = exB :=
  (self_message_filtered exB "society_channel" msgSelfB rfl).1

/-- Claim C9: both loops are self-healing.  An iteration whose body raised
(collaborator error in the worker loop, undecodable message in the
listener loop) leaves the state unchanged, never flips the running flag,
and the loop proceeds to process the remaining iterations. -/
theorem loops_self_healing (s : AgentState) (c : String) (inb : Inbound)
    (e : Option CollabEnv) (envs : List (Option CollabEnv))
    (msgs : List Inbound) :
    (worker_step s none).1 = s ∧
    listen_step s (.malformed c) = s ∧
    (worker_step s e).1.running = s.running ∧
    (listen_step s inb).running = s.running ∧
    run_worker s (none :: envs) = run_worker s envs ∧
    run_listener s (.malformed c :: msgs) = run_listener s msgs := by
  refine ⟨rfl, rfl, ?_, ?_, ?_, rfl⟩
  · rcases e with _ | e
    · rfl
    · simp [worker_step]
  · rcases inb with _ | c2 | ⟨ch, data⟩
    · rfl
    · rfl
    · simp only [listen_step]
      split_ifs <;> rfl
  · show List.foldl _ (if s.running then (worker_step s none).1 else s) envs =
      List.foldl _ s envs
    have : (if s.running then (worker_step s none).1 else s) = s := by
      split <;> rfl
    rw [this]

/-- Claim C10: every non-raising worker iteration appends exactly one work
record to the task list, whatever the output payload, so the standup
completed count grows by one per cycle, including failed and no-op
cycles. -/
theorem worker_appends_each_cycle (s : AgentState) (e : CollabEnv) :
    (worker_step s (some e)).1.tasks_completed =
      s.tasks_completed ++ [work_on_mission s e] ∧
    (worker_step s (some e)).1.tasks_completed.length =
      s.tasks_completed.length + 1 ∧
    (daily_standup (worker_step s (some e)).1).completed =
      (daily_standup s).completed + 1 := by
  refine ⟨rfl, ?_, ?_⟩ <;> simp [worker_step, daily_standup]

/-- Claim C1 as stated is refuted: with the development collaborator of
phase core_systems timing out, Dispatch returns a record whose payload is
the non-null failed-status object, not a null payload. -/
theorem dispatch_failure_counterexample :
    (work_on_mission exCore envTimeout).output = some WorkOutput.devFailed ∧
    (work_on_mission exCore envTimeout).output ≠ none := by
  refine ⟨rfl, ?_⟩
  rw [show (work_on_mission exCore envTimeout).output =
    some WorkOutput.devFailed from rfl]
  simp

/-- Claim C1 (amended): for every phase core_systems cycle whose
collaborator invocation raises or returns a non-success status, Dispatch
returns a WorkRecord whose payload is the non-null failed-status object,
the recorded failure marker; totality of `work_on_mission` models that the
failure is never propagated by raising. -/
theorem dispatch_failure_spec (s : AgentState) (e : CollabEnv)
    (hphase : s.current_phase = "core_systems")
    (hfail : inferFailed e.inferResp = true) :
    (work_on_mission s e).output = some WorkOutput.devFailed ∧
    (work_on_mission s e).output ≠ none := by
  have hdev : develop_core_system s.specialization e.inferResp =
      WorkOutput.devFailed := by
    rcases he : e.inferResp with _ | ⟨code, text⟩
    · rfl
    · rw [he] at hfail
      simp only [inferFailed, bne_iff_ne, ne_eq, decide_eq_true_eq] at hfail
      simp [develop_core_system, hfail]
  constructor
  · simp [work_on_mission, hphase, hdev]
  · simp [work_on_mission, hphase, hdev]

/-- Witness for the amended C1 at a concrete agent and a concrete HTTP 503
collaborator response. -/
theorem dispatch_failure_spec_witness :
    exCore.current_phase = "core_systems" ∧
    inferFailed envHttp503.inferResp = true ∧
    (work_on_mission exCore envHttp503).output = some WorkOutput.devFailed :=
  ⟨rfl, rfl, (dispatch_failure_spec exCore envHttp503 rfl rfl).1⟩

/-- Claim C2 as stated is refuted: a non-self message arriving on the
subscribed code_review channel does not touch the relationship map, so the
interaction count is not incremented there. -/
theorem relationship_touch_counterexample :
    "code_review" ∈ subscribedChannels ∧
    msgFromA.mind ≠ some exB.name ∧
    (listen_step exB (.decoded "code_review" msgFromA)).relationships =
      exB.relationships ∧
    interactionsOf (listen_step exB (.decoded "code_review" msgFromA))
        msgFromA.mind ≠
      interactionsOf exB msgFromA.mind + 1 := by
  refine ⟨by decide, by decide, rfl, by decide⟩

/-- Claim C2 (amended): the interaction count is incremented by exactly one
only for non-self messages on channels other than daily_standup,
code_review and design_review (the generic thought path, e.g.
society_channel or architecture_review); for such messages a
previously-unseen peer gets exactly one Relationship whose count goes
0 to 1 to 2 over two messages with collaboration score 0.5 both times. -/
theorem relationship_touch_spec (s : AgentState) (ch : String) (m : PeerMsg)
    (hself : m.mind ≠ some s.name) :
    ((ch ≠ "daily_standup" ∧ ch ≠ "code_review" ∧ ch ≠ "design_review") →
      interactionsOf (listen_step s (.decoded ch m)) m.mind =
        interactionsOf s m.mind + 1 ∧
      (dictFind m.mind s.relationships = none →
        interactionsOf s m.mind = 0 ∧
        dictFind m.mind (listen_step s (.decoded ch m)).relationships =
          some { interactions := 1, collaboration_score := 1/2 } ∧
        dictFind m.mind (listen_step (listen_step s (.decoded ch m))
            (.decoded ch m)).relationships =
          some { interactions := 2, collaboration_score := 1/2 })) ∧
    ((ch = "daily_standup" ∨ ch = "code_review" ∨ ch = "design_review") →
      (listen_step s (.decoded ch m)).relationships = s.relationships) := by
  constructor
  · rintro ⟨h1, h2, h3⟩
    have hstep : ∀ s2 : AgentState, s2.name = s.name →
        listen_step s2 (.decoded ch m) = process_other_thought s2 m := by
      intro s2 hn
      show (if m.mind = some s2.name then s2
        else if ch = "daily_standup" then s2
        else if ch = "code_review" then s2
        else if ch = "design_review" then s2
        else process_other_thought s2 m) = process_other_thought s2 m
      rw [if_neg (by rw [hn]; exact hself), if_neg h1, if_neg h2, if_neg h3]
    constructor
    · rw [hstep s rfl]
      unfold interactionsOf
      rw [process_other_thought_rel]
      rcases hd : dictFind m.mind s.relationships with _ | r
      · simp [dictFind_dictSet_same]
      · simp [dictFind_dictSet_same]
    · intro hd
      have hfirst :
          (listen_step s (.decoded ch m)).relationships =
            dictSet m.mind { interactions := 1, collaboration_score := 1/2 }
              (dictSet m.mind
                { interactions := 0, collaboration_score := 1/2 }
                s.relationships) := by
        rw [hstep s rfl, process_other_thought_rel, hd]
      refine ⟨by simp [interactionsOf, hd], ?_, ?_⟩
      · rw [hfirst, dictFind_dictSet_same]
      · rw [hstep (listen_step s (.decoded ch m)) (by rw [hstep s rfl]; rfl),
          process_other_thought_rel, hfirst, dictFind_dictSet_same,
          dictFind_dictSet_same]
  · intro hch
    show (if m.mind = some s.name then s
      else if ch = "daily_standup" then s
      else if ch = "code_review" then s
      else if ch = "design_review" then s
      else process_other_thought s m).relationships = s.relationships
    rcases hch with rfl | rfl | rfl <;> split_ifs <;> first | rfl | simp_all

/-- Witness for the amended C2: two society_channel messages from the
fresh peer JARVIS_A take its interaction count from 0 to 1 to 2 with
collaboration score 0.5 both times. -/
theorem relationship_touch_spec_witness :
    msgFromA.mind ≠ some exB.name ∧
    dictFind msgFromA.mind exB.relationships = none ∧
    interactionsOf (listen_step exB (.decoded "society_channel" msgFromA))
      msgFromA.mind = interactionsOf exB msgFromA.mind + 1 ∧
    dictFind msgFromA.mind
      (listen_step (listen_step exB (.decoded "society_channel" msgFromA))
        (.decoded "society_channel" msgFromA)).relationships =
      some { interactions := 2, collaboration_score := 1/2 } := by
  have h := (relationship_touch_spec exB "society_channel" msgFromA
    (by decide)).1 ⟨by decide, by decide, by decide⟩
  exact ⟨by decide, rfl, h.1, (h.2 rfl).2.2⟩

/-- Claim C3 as stated is refuted: the agent-to-agent activity feed channel
is named society_channel in the code, so the channel set does not contain
the string primary. -/
theorem channels_counterexample :
    "primary" ∉ subscribedChannels ∧
    subscribedChannels ≠ ["primary", "daily_standup", "code_review",
      "design_review", "architecture_review"] := by
  exact ⟨by decide, by decide⟩

/-- Claim C3 (amended): the subscribed channel set is exactly
society_channel, daily_standup, code_review, design_review and
architecture_review, and a work cycle with a non-null payload publishes
its work_update message on society_channel. -/
theorem channels_spec (s : AgentState) (e : CollabEnv)
    (h : (work_on_mission s e).output.isSome = true) :
    subscribedChannels = ["society_channel", "daily_standup", "code_review",
      "design_review", "architecture_review"] ∧
    (worker_step s (some e)).2 =
      [{ channel := "society_channel", mind := s.name,
         mtype := "work_update" }] := by
  refine ⟨rfl, ?_⟩
  rcases ho : (work_on_mission s e).output with _ | o
  · rw [ho] at h
    simp at h
  · simp [worker_step, ho]

/-- Witness for the amended C3 at a concrete successful core_systems
cycle. -/
theorem channels_spec_witness :
    (work_on_mission exCore envOk).output.isSome = true ∧
    (worker_step exCore (some envOk)).2 =
      [{ channel := "society_channel", mind := exCore.name,
         mtype := "work_update" }] :=
  ⟨rfl, (channels_spec exCore envOk rfl).2⟩

/-- Claim C5: the base profile and every known-tag profile keep all seven
trait values in [0,1]; exactly the traits present in the override table of
a known tag differ from the base profile; any unknown tag yields the
unmodified base profile. -/
theorem personality_profile_spec :
    (∀ t, 0 ≤ basePersonality t ∧ basePersonality t ≤ 1) ∧
    (∀ tag ∈ knownSpecializations, ∀ t : Trait,
      (0 ≤ initialize_personality tag t ∧ initialize_personality tag t ≤ 1) ∧
      (initialize_personality tag t ≠ basePersonality t ↔
        (ovFind t (specialization_overrides tag)).isSome = true)) ∧
    (∀ tag, tag ∉ knownSpecializations →
      initialize_personality tag = basePersonality) := by
  refine ⟨?_, ?_, ?_⟩
  · intro t
    cases t <;> constructor <;> norm_num [basePersonality]
  · intro tag htag
    simp only [knownSpecializations, List.mem_cons, List.not_mem_nil,
      or_false] at htag
    rcases htag with rfl | rfl | rfl | rfl | rfl | rfl | rfl | rfl | rfl | rfl <;>
      (intro t; cases t <;>
        simp [initialize_personality, specialization_overrides, ovFind,
          basePersonality] <;>
        norm_num)
  · intro tag h
    simp only [knownSpecializations, List.mem_cons, List.not_mem_nil,
      or_false, not_or] at h
    funext t
    simp only [initialize_personality, specialization_overrides]
    simp [h.1, h.2.1, h.2.2.1, h.2.2.2.1, h.2.2.2.2.1, h.2.2.2.2.2.1,
      h.2.2.2.2.2.2.1, h.2.2.2.2.2.2.2.1, h.2.2.2.2.2.2.2.2.1,
      h.2.2.2.2.2.2.2.2.2, ovFind]

/-- Witness for C5: the engineer tag is known and its productivity override
really differs from the base value, while the unknown generalist tag gets
the unmodified base profile. -/
theorem personality_profile_spec_witness :
    ("engineer" ∈ knownSpecializations ∧
      (initialize_personality "engineer" Trait.productivity ≠
          basePersonality Trait.productivity ↔
        (ovFind Trait.productivity
          (specialization_overrides "engineer")).isSome = true)) ∧
    ("generalist" ∉ knownSpecializations ∧
      initialize_personality "generalist" = basePersonality) := by
  constructor
  · exact ⟨by decide,
      (personality_profile_spec.2.1 "engineer" (by decide) Trait.productivity).2⟩
  · exact ⟨by decide, personality_profile_spec.2.2 "generalist" (by decide)⟩

section ScoreLemmas

/-- One listener step preserves the all-scores-at-0.5 invariant. -/
lemma listen_step_scores_half (s : AgentState) (inb : Inbound)
    (h : scores_half s) : scores_half (listen_step s inb) := by
  rcases inb with _ | c | ⟨ch, m⟩
  · exact h
  · exact h
  · show scores_half (if m.mind = some s.name then s
      else if ch = "daily_standup" then s
      else if ch = "code_review" then s
      else if ch = "design_review" then s
      else process_other_thought s m)
    split_ifs
    any_goals exact h
    intro p hp
    rw [process_other_thought_rel] at hp
    rcases hd : dictFind m.mind s.relationships with _ | r
    · rw [hd] at hp
      rcases mem_dictSet _ _ _ p hp with h5 | h5
      · rw [h5]
      · rcases mem_dictSet _ _ _ p h5 with h6 | h6
        · rw [h6]
        · exact h p h6
    · rw [hd] at hp
      rcases mem_dictSet _ _ _ p hp with h5 | h5
      · rw [h5]
        show r.collaboration_score = 1/2
        exact h (m.mind, r) (dictFind_mem m.mind r s.relationships hd)
      · exact h p h5

end ScoreLemmas

/-- Claim C8: along any run of the listener loop, every recorded
collaboration score stays at its initial value 0.5 and hence within [0,1];
the worker loop never writes the relationship map at all. -/
theorem collaboration_score_constant (s : AgentState) (msgs : List Inbound)
    (h : scores_half s) :
    scores_half (run_listener s msgs) ∧
    (∀ p ∈ (run_listener s msgs).relationships,
      0 ≤ p.2.collaboration_score ∧ p.2.collaboration_score ≤ 1) ∧
    (∀ st : AgentState, ∀ e, (worker_step st e).1.relationships =
      st.relationships) := by
  have hrun : scores_half (run_listener s msgs) := by
    unfold run_listener
    induction msgs generalizing s with
    | nil => exact h
    | cons m rest ih => exact ih _ (listen_step_scores_half s m h)
  refine ⟨hrun, ?_, ?_⟩
  · intro p hp
    rw [hrun p hp]
    norm_num
  · intro st e
    rcases e with _ | e
    · rfl
    · rfl

/-- Witness for C8: starting from an agent with no relationships, two
listener messages leave every recorded score at 0.5. -/
theorem collaboration_score_constant_witness :
    scores_half exB ∧
    scores_half (run_listener exB
      [Inbound.decoded "society_channel" msgFromA,
       Inbound.decoded "architecture_review" msgFromA]) := by
  have hv : scores_half exB := by
    intro p hp
    simp [exB] at hp
  exact ⟨hv, (collaboration_score_constant exB _ hv).1⟩

end TheCollective
